import Mathlib

/-!
Verification of the agent state machine and LLM request pipeline of the
Strix repository (`strix/agents/state.py`, `strix/llm/llm.py`,
`strix/llm/config.py`) against its natural-language specification.

The Python code is shallowly embedded: pydantic models become structures,
mutators become pure state-transformers taking the current wall-clock
reading (`now`) explicitly, Python `Any`-typed payloads that no code path
inspects become opaque `String` payloads, and `dict` message content
(which the code inspects only through `isinstance(content, str)` and
`item.get("type") == "text"`) becomes an inductive `MsgContent`.
-/

/-- One item of a structured (list-valued) message content, as inspected by
`LLM._add_cache_control_to_content`: a `type` tag, a `text` payload, and
whether a `cache_control` key is present. -/
structure ContentItem where
  ctype : String
  text : String
  cache_control : Bool
deriving Repr, DecidableEq

/-- Message content: either a plain string or a list of content items.
The `items` case covers every non-string content the Python code can meet
(`state.py` only ever asks `isinstance(content, str)`). -/
inductive MsgContent where
  | str (s : String)
  | items (l : List ContentItem)
deriving Repr, DecidableEq

/-- A conversation message: a role and a content, mirroring the
`{"role": ..., "content": ...}` dicts of `state.py` and `llm.py`. -/
structure Message where
  role : String
  content : MsgContent
deriving Repr, DecidableEq

/-- An entry of `AgentState.actions_taken` / `AgentState.observations`:
the iteration and timestamp it was recorded at plus the opaque payload. -/
structure StampedEntry where
  iteration : Nat
  timestamp : String
  payload : String
deriving Repr, DecidableEq

/-- `AgentState` from `strix/agents/state.py`, with `dict[str, Any]`
payloads (`sandbox_info`, `final_result`, action/observation payloads,
`context` values) embedded as opaque strings. -/
structure AgentState where
  agent_id : String := "agent_00000000"
  agent_name : String := "Strix Agent"
  parent_id : Option String := none
  sandbox_id : Option String := none
  sandbox_token : Option String := none
  sandbox_info : Option String := none
  task : String := ""
  iteration : Nat := 0
  max_iterations : Nat := 200
  completed : Bool := false
  stop_requested : Bool := false
  waiting_for_input : Bool := false
  llm_failed : Bool := false
  final_result : Option String := none
  messages : List Message := []
  context : List (String × String) := []
  start_time : String := "t0"
  last_updated : String := "t0"
  actions_taken : List StampedEntry := []
  observations : List StampedEntry := []
  errors : List String := []
deriving Repr, DecidableEq

namespace AgentState

/-- `increment_iteration` (`state.py` lines 40-42). -/
def increment_iteration (now : String) (st : AgentState) : AgentState :=
  { st with iteration := st.iteration + 1, last_updated := now }

/-- `add_message` (`state.py` lines 44-46). -/
def add_message (now : String) (role : String) (content : MsgContent)
    (st : AgentState) : AgentState :=
  { st with messages := st.messages ++ [⟨role, content⟩], last_updated := now }

/-- `add_action` (`state.py` lines 48-55): appends a stamped entry; it does
not assign `last_updated`. -/
def add_action (now : String) (action : String) (st : AgentState) : AgentState :=
  { st with actions_taken :=
      st.actions_taken ++ [⟨st.iteration, now, action⟩] }

/-- `add_observation` (`state.py` lines 57-64): appends a stamped entry; it
does not assign `last_updated`. -/
def add_observation (now : String) (observation : String) (st : AgentState) :
    AgentState :=
  { st with observations :=
      st.observations ++ [⟨st.iteration, now, observation⟩] }

/-- `add_error` (`state.py` lines 66-68). -/
def add_error (now : String) (error : String) (st : AgentState) : AgentState :=
  { st with
    errors := st.errors ++ ["Iteration " ++ toString st.iteration ++ ": " ++ error],
    last_updated := now }

/-- Python dict assignment `d[k] = v`: replace in place if the key exists,
else append. -/
def dictSet (ctx : List (String × String)) (k v : String) :
    List (String × String) :=
  if ctx.any (fun p => p.1 == k) then
    ctx.map (fun p => if p.1 == k then (k, v) else p)
  else
    ctx ++ [(k, v)]

/-- `update_context` (`state.py` lines 70-72). -/
def update_context (now : String) (key value : String) (st : AgentState) :
    AgentState :=
  { st with context := dictSet st.context key value, last_updated := now }

/-- `set_completed` (`state.py` lines 74-77); the Python default argument
`final_result=None` is the `none` case. -/
def set_completed (now : String) (final_result : Option String) (st : AgentState) :
    AgentState :=
  { st with completed := true, final_result := final_result, last_updated := now }

/-- `request_stop` (`state.py` lines 79-81). -/
def request_stop (now : String) (st : AgentState) : AgentState :=
  { st with stop_requested := true, last_updated := now }

/-- `has_reached_max_iterations` (`state.py` lines 104-105). -/
def has_reached_max_iterations (st : AgentState) : Bool :=
  st.iteration ≥ st.max_iterations

/-- `should_stop` (`state.py` lines 83-84). -/
def should_stop (st : AgentState) : Bool :=
  st.stop_requested || st.completed || st.has_reached_max_iterations

/-- `is_waiting_for_input` (`state.py` lines 86-87). -/
def is_waiting_for_input (st : AgentState) : Bool :=
  st.waiting_for_input

/-- `enter_waiting_state` (`state.py` lines 89-93). -/
def enter_waiting_state (now : String) (llm_failed : Bool) (st : AgentState) :
    AgentState :=
  { st with waiting_for_input := true, stop_requested := false,
            llm_failed := llm_failed, last_updated := now }

/-- `resume_from_waiting` (`state.py` lines 95-102). The Python guard
`if new_task:` is truthiness: only a non-`None`, non-empty string replaces
`task`. -/
def resume_from_waiting (now : String) (new_task : Option String)
    (st : AgentState) : AgentState :=
  { st with waiting_for_input := false, stop_requested := false,
            completed := false, llm_failed := false,
            task := match new_task with
                    | some s => if s = "" then st.task else s
                    | none => st.task,
            last_updated := now }

/-- Python `self.messages[-count:]` under the guard `len(messages) ≥ count`;
for `count = 0`, `messages[-0:]` is the whole list. -/
def lastSlice (l : List Message) (count : Nat) : List Message :=
  if count = 0 then l else l.drop (l.length - count)

/-- Whether one message passes the blank test of `has_empty_last_messages`:
the loop body returns `False` exactly when the content is a string that is
non-blank after stripping (`content.strip()` is truthy iff the string has
a non-whitespace character), so a message survives iff its content is a
whitespace-only string or not a string at all. -/
def messageIsBlankish (m : Message) : Bool :=
  match m.content with
  | .str s => s.data.all Char.isWhitespace
  | .items _ => true

/-- `has_empty_last_messages` (`state.py` lines 107-118). -/
def has_empty_last_messages (st : AgentState) (count : Nat) : Bool :=
  if st.messages.length < count then false
  else (lastSlice st.messages count).all messageIsBlankish

end AgentState

/-- One public-mutator event (mutator name plus its arguments), paired with
the wall-clock reading `now` the call happens at. -/
inductive MutatorCall where
  | increment_iteration (now : String)
  | add_message (now : String) (role : String) (content : MsgContent)
  | add_action (now : String) (action : String)
  | add_observation (now : String) (observation : String)
  | add_error (now : String) (error : String)
  | update_context (now : String) (key value : String)
  | set_completed (now : String) (final_result : Option String)
  | request_stop (now : String)
  | enter_waiting_state (now : String) (llm_failed : Bool)
  | resume_from_waiting (now : String) (new_task : Option String)
deriving Repr, DecidableEq

namespace MutatorCall

/-- Dispatch one mutator call to the corresponding `AgentState` mutator. -/
def apply (c : MutatorCall) (st : AgentState) : AgentState :=
  match c with
  | .increment_iteration now => st.increment_iteration now
  | .add_message now role content => st.add_message now role content
  | .add_action now action => st.add_action now action
  | .add_observation now observation => st.add_observation now observation
  | .add_error now error => st.add_error now error
  | .update_context now k v => st.update_context now k v
  | .set_completed now r => st.set_completed now r
  | .request_stop now => st.request_stop now
  | .enter_waiting_state now f => st.enter_waiting_state now f
  | .resume_from_waiting now t => st.resume_from_waiting now t

end MutatorCall

/-- Run a sequence of mutator calls from a starting state, earliest call
first. -/
def runTrace (st : AgentState) : List MutatorCall → AgentState
  | [] => st
  | c :: rest => runTrace (c.apply st) rest

/-- A state is reachable when some sequence of public mutator calls leads
to it from a fresh (all-defaults) state. -/
def ReachableState (st : AgentState) : Prop :=
  ∃ trace : List MutatorCall, runTrace {} trace = st

/-! ## LLM configuration (`strix/llm/config.py`) -/

/-- `LLMConfig` from `strix/llm/config.py` after construction: `model_name`
resolved and non-empty, `temperature` clamped into `[0, 1]`. -/
structure LLMConfig where
  model_name : String
  temperature : Rat
  enable_prompt_caching : Bool
  prompt_modules : List String
deriving Repr, DecidableEq

/-- `LLMConfig.__init__` (`config.py` lines 5-19): Python `or`-truthiness
resolves `model_name` against the `STRIX_LLM` environment value (default
`"openai/gpt-5"`), fails when the result is empty, and clamps the
temperature by `max(0.0, min(1.0, t))`. -/
def mkLLMConfig (model_name : Option String) (env_strix_llm : Option String)
    (temperature : Rat) (enable_prompt_caching : Bool)
    (prompt_modules : Option (List String)) : Except String LLMConfig :=
  let envDefault := match env_strix_llm with
    | some s => if s = "" then "" else s
    | none => "openai/gpt-5"
  let resolved := match model_name with
    | some s => if s = "" then envDefault else s
    | none => envDefault
  if resolved = "" then
    .error "STRIX_LLM environment variable must be set and not empty"
  else
    .ok { model_name := resolved,
          temperature := max 0 (min 1 temperature),
          enable_prompt_caching := enable_prompt_caching,
          prompt_modules := (prompt_modules.getD []) }

/-! ## LLM request pipeline (`strix/llm/llm.py`) -/

namespace LLM

/-- `MODELS_WITHOUT_STOP_WORDS` (`llm.py` lines 48-63). -/
def MODELS_WITHOUT_STOP_WORDS : List String :=
  ["gpt-5", "gpt-5-mini", "gpt-5-nano", "o1-mini", "o1-preview", "o1",
   "o1-2024-12-17", "o3", "o3-2025-04-16", "o3-mini-2025-01-31", "o3-mini",
   "o4-mini", "o4-mini-2025-04-16", "grok-4-0709"]

/-- `REASONING_EFFORT_SUPPORTED_MODELS` (`llm.py` lines 65-79). -/
def REASONING_EFFORT_SUPPORTED_MODELS : List String :=
  ["gpt-5", "gpt-5-mini", "gpt-5-nano", "o1-2024-12-17", "o1", "o3",
   "o3-2025-04-16", "o3-mini-2025-01-31", "o3-mini", "o4-mini",
   "o4-mini-2025-04-16", "gemini-2.5-flash", "gemini-2.5-pro"]

/-- Python `str.lower()`, character by character. -/
def toLowerStr (s : String) : String :=
  ⟨s.data.map Char.toLower⟩

/-- Python `name.split("/")[-1]`: the segment after the last `/` (the
whole string when no `/` occurs). -/
def lastPathSegment (s : String) : String :=
  ⟨(s.data.reverse.takeWhile (fun c => c ≠ '/')).reverse⟩

/-- Whether `needle` occurs at the start of `hay`. -/
def charsStartWith : List Char → List Char → Bool
  | _, [] => true
  | [], _ :: _ => false
  | c :: cs, d :: ds => c == d && charsStartWith cs ds

/-- Whether `needle` occurs anywhere in `hay`. -/
def charsContain (needle : List Char) : List Char → Bool
  | [] => charsStartWith [] needle
  | c :: rest => charsStartWith (c :: rest) needle || charsContain needle rest

/-- Python `needle in hay` on strings. -/
def strContains (hay needle : String) : Bool :=
  charsContain needle.data hay.data

/-- `LLM._should_include_stop_param` (`llm.py` lines 328-339): compares the
lowercased bare segment and the lowercased full name against each denylist
entry lowercased. -/
def _should_include_stop_param (model_name : String) : Bool :=
  if model_name = "" then true
  else
    let actual := toLowerStr (lastPathSegment model_name)
    let full := toLowerStr model_name
    !(MODELS_WITHOUT_STOP_WORDS.any
        (fun m => actual == toLowerStr m || full == toLowerStr m))

/-- `LLM._should_include_reasoning_effort` (`llm.py` lines 341-352). -/
def _should_include_reasoning_effort (model_name : String) : Bool :=
  if model_name = "" then false
  else
    let actual := toLowerStr (lastPathSegment model_name)
    let full := toLowerStr model_name
    REASONING_EFFORT_SUPPORTED_MODELS.any
      (fun m => actual == toLowerStr m || full == toLowerStr m)

/-- The request specification built by `LLM._make_request`
(`llm.py` lines 354-369) before submission to the queue. -/
structure RequestSpec where
  model : String
  messages : List Message
  temperature : Rat
  timeout : Nat
  stop : Option (List String)
  reasoning_effort : Option String
deriving Repr, DecidableEq

/-- The `completion_args` dictionary assembled by `LLM._make_request`
(`llm.py` lines 358-369). -/
def make_request_spec (cfg : LLMConfig) (messages : List Message) :
    RequestSpec :=
  { model := cfg.model_name,
    messages := messages,
    temperature := cfg.temperature,
    timeout := 180,
    stop := if _should_include_stop_param cfg.model_name then
              some ["</function>"] else none,
    reasoning_effort := if _should_include_reasoning_effort cfg.model_name then
                          some "high" else none }

/-- `LLM._is_anthropic_model` (`llm.py` lines 170-174): any of
`"anthropic/"`, `"claude"` occurs in the lowercased model name. -/
def _is_anthropic_model (model_name : String) : Bool :=
  if model_name = "" then false
  else
    let ml := toLowerStr model_name
    ["anthropic/", "claude"].any (fun provider => strContains ml provider)

/-- The `while non_system_messages // interval > max_cached_messages:
interval += 10` loop of `LLM._calculate_cache_interval`
(`llm.py` lines 183-186). The `0 < interval` guard only serves
termination: every call starts from `interval = 10` and only grows. -/
def cacheIntervalLoop (non_system : Nat) (interval : Nat) : Nat :=
  if h : 0 < interval ∧ 3 < non_system / interval then
    cacheIntervalLoop non_system (interval + 10)
  else interval
termination_by non_system - interval
decreasing_by
  have h4 : 4 * interval ≤ non_system :=
    (Nat.le_div_iff_mul_le h.1).mp h.2
  have hlt : interval < non_system :=
    lt_of_lt_of_le (by omega) h4
  exact Nat.sub_lt_sub_left hlt (by omega)

/-- `LLM._calculate_cache_interval` (`llm.py` lines 176-187). -/
def _calculate_cache_interval (total_messages : Nat) : Nat :=
  if total_messages ≤ 1 then 10
  else cacheIntervalLoop (total_messages - 1) 10

/-- `LLM._add_cache_control_to_content` (`llm.py` lines 159-168): a plain
string becomes a one-item text list carrying the cache marker; a non-empty
item list whose last item is a text item gets the marker merged into that
last item; anything else is returned unchanged. -/
def _add_cache_control_to_content (content : MsgContent) : MsgContent :=
  match content with
  | .str s => .items [⟨"text", s, true⟩]
  | .items l =>
    match l.getLast? with
    | some last =>
      if last.ctype = "text" then
        .items (l.dropLast ++ [{ last with cache_control := true }])
      else .items l
    | none => .items l

/-- The per-message update performed inside `_prepare_cached_messages`:
copy the message and replace its content by the cache-annotated content. -/
def annotateMessage (m : Message) : Message :=
  { m with content := _add_cache_control_to_content m.content }

/-- Python `range(start, stop, step)` for a positive `step`, as the
increasing list of all `i < stop` with `i ≥ start` and
`(i - start) % step = 0`. -/
def pyRangeStep (start stop step : Nat) : List Nat :=
  (List.range stop).filter (fun i => start ≤ i && (i - start) % step == 0)

/-- The `for i in range(interval, total_messages, interval)` loop of
`LLM._prepare_cached_messages` (`llm.py` lines 213-222): stop after three
annotations; annotate index `i` only when it is in range, counting only
those. -/
def prepareLoop (msgs : List Message) : List Nat → Nat → List Message
  | [], _ => msgs
  | i :: rest, count =>
    if 3 ≤ count then msgs
    else if h : i < msgs.length then
      prepareLoop (msgs.set i (annotateMessage (msgs.get ⟨i, h⟩))) rest
        (count + 1)
    else prepareLoop msgs rest count

/-- The `if cached_messages and cached_messages[0].get("role") == "system"`
step of `_prepare_cached_messages` (`llm.py` lines 202-207): copy and
cache-annotate the head message when it is the system message. -/
def headAnnotated : List Message → List Message
  | [] => []
  | m0 :: rest =>
    if m0.role = "system" then annotateMessage m0 :: rest else m0 :: rest

/-- `LLM._prepare_cached_messages` (`llm.py` lines 189-224).
`supports_caching` stands for the external
`litellm.utils.supports_prompt_caching(model_name)` lookup. -/
def _prepare_cached_messages (cfg : LLMConfig) (supports_caching : Bool)
    (messages : List Message) : List Message :=
  if cfg.enable_prompt_caching = false ∨ supports_caching = false ∨
      messages = [] then messages
  else if _is_anthropic_model cfg.model_name = false then messages
  else
    let cached := headAnnotated messages
    let total := cached.length
    if 1 < total then
      let interval := _calculate_cache_interval total
      prepareLoop cached (pyRangeStep interval total interval) 0
    else cached

end LLM

namespace LLM

/-- `StepRole` (`llm.py` lines 82-85). -/
inductive StepRole where
  | AGENT
  | USER
  | SYSTEM
deriving Repr, DecidableEq

/-- `LLMResponse` (`llm.py` lines 88-94); tool invocations are kept as
opaque parsed payloads. -/
structure LLMResponse where
  content : String
  tool_invocations : Option (List String)
  scan_id : Option String
  step_number : Nat
  role : StepRole
deriving Repr, DecidableEq

/-- `RequestStats` (`llm.py` lines 97-105). -/
structure RequestStats where
  input_tokens : Nat := 0
  output_tokens : Nat := 0
  cached_tokens : Nat := 0
  cache_creation_tokens : Nat := 0
  cost : Rat := 0
  requests : Nat := 0
  failed_requests : Nat := 0
deriving Repr, DecidableEq

/-- `LLMRequestFailedError` (`llm.py` lines 41-45). -/
structure LLMRequestFailedError where
  message : String
  details : Option String
deriving Repr, DecidableEq

/-- The exception kinds the `except` chain of `LLM.generate`
(`llm.py` lines 270-313) distinguishes, each carrying its `str(e)`
diagnostic text; `other` carries the runtime type name of any exception
outside the litellm hierarchy. -/
inductive BackendError where
  | rateLimit (msg : String)
  | authentication (msg : String)
  | notFound (msg : String)
  | contextWindowExceeded (msg : String)
  | contentPolicyViolation (msg : String)
  | serviceUnavailable (msg : String)
  | timedOut (msg : String)
  | unprocessableEntity (msg : String)
  | internalServerError (msg : String)
  | apiConnection (msg : String)
  | unsupportedParams (msg : String)
  | budgetExceeded (msg : String)
  | apiResponseValidation (msg : String)
  | jsonSchemaValidation (msg : String)
  | invalidRequest (msg : String)
  | badRequest (msg : String)
  | apiError (msg : String)
  | openAIError (msg : String)
  | other (typeName : String) (msg : String)
deriving Repr, DecidableEq

/-- The fixed category label each `except` clause of `generate` puts after
`"LLM request failed: "`; for an exception outside the litellm hierarchy it
is the runtime type name. -/
def errorCategoryLabel : BackendError → String
  | .rateLimit _ => "Rate limit exceeded"
  | .authentication _ => "Invalid API key"
  | .notFound _ => "Model not found"
  | .contextWindowExceeded _ => "Context too long"
  | .contentPolicyViolation _ => "Content policy violation"
  | .serviceUnavailable _ => "Service unavailable"
  | .timedOut _ => "Request timed out"
  | .unprocessableEntity _ => "Unprocessable entity"
  | .internalServerError _ => "Internal server error"
  | .apiConnection _ => "Connection error"
  | .unsupportedParams _ => "Unsupported parameters"
  | .budgetExceeded _ => "Budget exceeded"
  | .apiResponseValidation _ => "Response validation error"
  | .jsonSchemaValidation _ => "JSON schema validation error"
  | .invalidRequest _ => "Invalid request"
  | .badRequest _ => "Bad request"
  | .apiError _ => "API error"
  | .openAIError _ => "OpenAI error"
  | .other typeName _ => typeName

/-- The `str(e)` diagnostic text the exception carries. -/
def errorDiagnostic : BackendError → String
  | .rateLimit m | .authentication m | .notFound m
  | .contextWindowExceeded m | .contentPolicyViolation m
  | .serviceUnavailable m | .timedOut m | .unprocessableEntity m
  | .internalServerError m | .apiConnection m | .unsupportedParams m
  | .budgetExceeded m | .apiResponseValidation m | .jsonSchemaValidation m
  | .invalidRequest m | .badRequest m | .apiError m | .openAIError m => m
  | .other _ m => m

/-- The typed failure each `except` clause raises: a fixed
`"LLM request failed: "`-prefixed message plus the original diagnostic. -/
def normalizeError (e : BackendError) : LLMRequestFailedError :=
  { message := "LLM request failed: " ++ errorCategoryLabel e,
    details := some (errorDiagnostic e) }

/-- The raw backend result as far as `generate` / `_update_usage_stats`
inspect it: the assistant text (absent → `""`) and the usage counters. -/
structure RawResponse where
  content : Option String := none
  prompt_tokens : Nat := 0
  completion_tokens : Nat := 0
  cached_tokens : Nat := 0
  cache_creation_tokens : Nat := 0
deriving Repr, DecidableEq

/-- The `cost = completion_cost(response) or 0.0` step wrapped in
`try/except` (`llm.py` lines 402-406): an exception or a falsy result
both yield cost `0`. -/
def computeCost (costOutcome : Except String (Option Rat)) : Rat :=
  match costOutcome with
  | .ok (some c) => c
  | .ok none => 0
  | .error _ => 0

/-- `LLM._update_usage_stats` (`llm.py` lines 379-427): folds the raw
usage counters and the (failure-suppressed) cost into the running total
and overwrites the latest-request snapshot. It is total: a cost failure
is absorbed by `computeCost`, never surfaced. -/
def _update_usage_stats (total last : RequestStats) (raw : RawResponse)
    (costOutcome : Except String (Option Rat)) :
    RequestStats × RequestStats :=
  let cost := computeCost costOutcome
  ({ total with
      input_tokens := total.input_tokens + raw.prompt_tokens,
      output_tokens := total.output_tokens + raw.completion_tokens,
      cached_tokens := total.cached_tokens + raw.cached_tokens,
      cache_creation_tokens :=
        total.cache_creation_tokens + raw.cache_creation_tokens,
      cost := total.cost + cost },
   { last with
      input_tokens := raw.prompt_tokens,
      output_tokens := raw.completion_tokens,
      cached_tokens := raw.cached_tokens,
      cache_creation_tokens := raw.cache_creation_tokens,
      cost := cost })

/-- The characters of `hay` up to and including the first occurrence of
`needle`, or `none` when `needle` does not occur. -/
def takeThrough (needle : List Char) : List Char → Option (List Char)
  | [] => if needle.isEmpty then some [] else none
  | c :: rest =>
    if charsStartWith (c :: rest) needle then some needle
    else (takeThrough needle rest).map (fun l => c :: l)

/-- The post-truncation clamp of `generate` (`llm.py` lines 256-258):
if `"</function>"` occurs in the content, keep everything up to and
including its first occurrence (Python `content[:find + len]`). -/
def clampAtFirstFunctionEnd (content : String) : String :=
  match takeThrough "</function>".data content.data with
  | some l => ⟨l⟩
  | none => content

/-- `LLM.generate` (`llm.py` lines 226-313), with the out-of-scope
collaborators passed in explicitly: `compress` stands for
`MemoryCompressor.compress_history`, `truncate` for
`_truncate_to_first_function`, `parseTools` for `parse_tool_invocations`
(both from the absent `strix/llm/utils.py`), `backend` for the awaited
queue round trip, and `costOutcome` for `completion_cost`. Returns the
response or the normalized typed failure, together with the replaced
(compressed) history buffer and the updated stats pair. -/
def generate (compress : List Message → List Message)
    (truncate : String → String) (parseTools : String → List String)
    (system_prompt : String) (cfg : LLMConfig) (supports_caching : Bool)
    (conversation_history : List Message)
    (backend : Except BackendError RawResponse)
    (costOutcome : Except String (Option Rat))
    (total last : RequestStats)
    (scan_id : Option String) (step_number : Nat) :
    Except LLMRequestFailedError LLMResponse × List Message ×
      RequestStats × RequestStats :=
  let compressed := compress conversation_history
  let history := compressed
  let messages := ⟨"system", .str system_prompt⟩ :: compressed
  let cached := _prepare_cached_messages cfg supports_caching messages
  let _spec := make_request_spec cfg cached
  match backend with
  | .error e => (.error (normalizeError e), history, total, last)
  | .ok raw =>
    let total1 := { total with requests := total.requests + 1 }
    let last1 : RequestStats := { requests := 1 }
    let (total2, last2) := _update_usage_stats total1 last1 raw costOutcome
    let content0 := raw.content.getD ""
    let content1 := truncate content0
    let content2 := clampAtFirstFunctionEnd content1
    let tools := parseTools content2
    (.ok { content := content2,
           tool_invocations := if tools = [] then none else some tools,
           scan_id := scan_id,
           step_number := step_number,
           role := .AGENT },
     history, total2, last2)

end LLM

/-! ## Helper predicates and example states used by the claim theorems -/

/-- Python `isinstance(content, str)`. -/
def contentIsString (c : MsgContent) : Bool :=
  match c with
  | .str _ => true
  | .items _ => false

/-- A content counts toward the blank test: every string it could be is
whitespace-only (non-string content satisfies this vacuously). -/
def BlankOrNonString (c : MsgContent) : Prop :=
  ∀ s, c = MsgContent.str s → ∀ ch ∈ s.data, ch.isWhitespace = true

instance (c : MsgContent) : Decidable (BlankOrNonString c) := by
  unfold BlankOrNonString
  cases c with
  | str s =>
    exact decidable_of_iff (∀ ch ∈ s.data, ch.isWhitespace = true) (by simp)
  | items l =>
    exact isTrue (by simp)

/-- A state whose last three messages all carry non-string content. -/
def stNonString : AgentState :=
  { messages := [⟨"user", .items []⟩, ⟨"assistant", .items []⟩,
                 ⟨"user", .items []⟩] }

/-- A state whose last three messages are `""`, `"   "`, `""`. -/
def stBlank3 : AgentState :=
  { messages := [⟨"user", .str ""⟩, ⟨"assistant", .str "   "⟩,
                 ⟨"user", .str ""⟩] }

/-- A state reached from fresh by completing with a result and then
resuming from waiting. -/
def stCompletedThenResumed : AgentState :=
  runTrace {} [.set_completed "t1" (some "report"),
               .resume_from_waiting "t2" none]

/-! ## C1 -/

/-- C1 counterexample: the claim says any non-string content among the
last `n` messages makes `has_empty_last_messages(n)` false, but on a state
whose last three messages all have non-string (list) content the code
returns `true`. -/
theorem has_empty_last_messages_true_on_nonstring :
    stNonString.has_empty_last_messages 3 = true ∧
    stNonString.messages.all (fun m => !(contentIsString m.content)) = true := by
  constructor
  · decide
  · decide

/-- Every message passes the loop's blank test iff its content is a blank
string or not a string at all. -/
theorem messageIsBlankish_iff (m : Message) :
    AgentState.messageIsBlankish m = true ↔ BlankOrNonString m.content := by
  unfold AgentState.messageIsBlankish BlankOrNonString
  cases h : m.content with
  | str s => simp [List.all_eq_true]
  | items l => simp

/-- C1 (amended): with at least `n` messages, `has_empty_last_messages(n)`
is true iff every one of the last `n` messages has blank/whitespace-only
string content or non-string content (non-string content always counts as
blank); with fewer than `n` messages the result is false. -/
theorem has_empty_last_messages_spec (st : AgentState) (n : Nat) :
    (st.messages.length < n → st.has_empty_last_messages n = false) ∧
    (n ≤ st.messages.length →
      (st.has_empty_last_messages n = true ↔
        ∀ m ∈ AgentState.lastSlice st.messages n, BlankOrNonString m.content)) := by
  constructor
  · intro h
    simp [AgentState.has_empty_last_messages, h]
  · intro h
    rw [AgentState.has_empty_last_messages, if_neg (by omega)]
    simp only [List.all_eq_true, messageIsBlankish_iff]

/-- C1 (amended) witness: on the state whose last three messages are
`""`, `"   "`, `""` the predicate holds at `n = 3`, and a state with two
messages fails at `n = 3`. -/
theorem has_empty_last_messages_spec_witness :
    stBlank3.has_empty_last_messages 3 = true ∧
    AgentState.has_empty_last_messages
      { messages := [⟨"u", .str ""⟩, ⟨"u", .str ""⟩] } 3 = false :=
  ⟨((has_empty_last_messages_spec stBlank3 3).2 (by decide)).mpr (by decide),
   (has_empty_last_messages_spec
      { messages := [⟨"u", .str ""⟩, ⟨"u", .str ""⟩] } 3).1 (by decide)⟩

/-! ## C2 -/

/-- C2 counterexample: the claim says every mutator (including
`add_action`) updates `last_updated`, but calling `add_action` at time
`"t1"` on a fresh state leaves `last_updated` at its prior value `"t0"`. -/
theorem add_action_leaves_last_updated :
    (AgentState.add_action "t1" "probe" {}).last_updated = "t0" ∧
    ("t0" : String) ≠ "t1" := by
  constructor
  · rfl
  · decide

/-- C2 (amended): `increment_iteration`, `add_message`, `add_error`,
`update_context`, `set_completed`, `request_stop`, `enter_waiting_state`
and `resume_from_waiting` all set `last_updated` to the time of the call,
but `add_action` and `add_observation` only stamp the appended entry and
leave `last_updated` unchanged. -/
theorem mutators_update_last_updated (st : AgentState)
    (now role err key value act obs : String) (content : MsgContent)
    (result : Option String) (new_task : Option String) (failed : Bool) :
    (st.increment_iteration now).last_updated = now ∧
    (st.add_message now role content).last_updated = now ∧
    (st.add_error now err).last_updated = now ∧
    (st.update_context now key value).last_updated = now ∧
    (st.set_completed now result).last_updated = now ∧
    (st.request_stop now).last_updated = now ∧
    (st.enter_waiting_state now failed).last_updated = now ∧
    (st.resume_from_waiting now new_task).last_updated = now ∧
    (st.add_action now act).last_updated = st.last_updated ∧
    (st.add_action now act).actions_taken =
      st.actions_taken ++ [⟨st.iteration, now, act⟩] ∧
    (st.add_observation now obs).last_updated = st.last_updated ∧
    (st.add_observation now obs).observations =
      st.observations ++ [⟨st.iteration, now, obs⟩] :=
  ⟨rfl, rfl, rfl, rfl, rfl, rfl, rfl, rfl, rfl, rfl, rfl, rfl⟩

/-! ## C3 -/

/-- C3 counterexample: the claim says a reachable state has `final_result`
set only while `completed` is true, but completing with a result and then
resuming from waiting reaches a state with `final_result` still present
and `completed = false`. -/
theorem reachable_final_result_without_completed :
    ReachableState stCompletedThenResumed ∧
    stCompletedThenResumed.final_result = some "report" ∧
    stCompletedThenResumed.completed = false :=
  ⟨⟨[.set_completed "t1" (some "report"), .resume_from_waiting "t2" none],
    rfl⟩, rfl, rfl⟩

/-- The value `final_result` holds after a trace: the argument of the last
`set_completed` call, or the starting value when none occurred. -/
def lastCompletionResultFrom (acc : Option String) :
    List MutatorCall → Option String
  | [] => acc
  | .set_completed _ r :: rest => lastCompletionResultFrom r rest
  | _ :: rest => lastCompletionResultFrom acc rest

/-- C3 (amended): only `set_completed` ever assigns `final_result` — after
any mutator sequence it equals the argument of the most recent
`set_completed` call (the starting value when none occurred); it is not
cleared by `resume_from_waiting`, so it may be non-None while `completed`
is false. -/
theorem final_result_only_from_set_completed (st : AgentState)
    (trace : List MutatorCall) :
    (runTrace st trace).final_result =
      lastCompletionResultFrom st.final_result trace := by
  induction trace generalizing st with
  | nil => rfl
  | cons c rest ih =>
    cases c <;>
      simp [runTrace, MutatorCall.apply, lastCompletionResultFrom, ih,
        AgentState.increment_iteration, AgentState.add_message,
        AgentState.add_action, AgentState.add_observation,
        AgentState.add_error, AgentState.update_context,
        AgentState.set_completed, AgentState.request_stop,
        AgentState.enter_waiting_state, AgentState.resume_from_waiting]

/-! ## C4 -/

/-- C4: `should_stop` is a pure derived predicate, true iff
`stop_requested` or `completed` or `iteration ≥ max_iterations`; with both
flags false it reduces to the iteration comparison, so it is true at
`iteration = max_iterations` and false one iteration earlier. -/
theorem should_stop_iff (st : AgentState) :
    (st.should_stop = true ↔
      st.stop_requested = true ∨ st.completed = true ∨
        st.max_iterations ≤ st.iteration) ∧
    (st.stop_requested = false → st.completed = false →
      st.should_stop = decide (st.max_iterations ≤ st.iteration)) := by
  constructor
  · simp [AgentState.should_stop, AgentState.has_reached_max_iterations,
      Bool.or_eq_true, decide_eq_true_eq, or_assoc]
  · intro h1 h2
    simp [AgentState.should_stop, AgentState.has_reached_max_iterations,
      h1, h2]

/-- C4 witness: with all flags false, `should_stop` is true at
`iteration = max_iterations = 200` and false at `iteration = 199`. -/
theorem should_stop_iff_witness :
    AgentState.should_stop { iteration := 200 } = true ∧
    AgentState.should_stop { iteration := 199 } = false := by
  constructor
  · exact (should_stop_iff { iteration := 200 }).1.mpr (by decide)
  · have h := (should_stop_iff { iteration := 199 }).2 rfl rfl
    simpa using h

/-! ## C5 -/

/-- C5: `resume_from_waiting` clears `waiting_for_input`,
`stop_requested`, `completed` and `llm_failed`, and replaces `task` when a
(non-empty) new task is supplied. -/
theorem resume_from_waiting_spec (st : AgentState) (now s : String)
    (h : s ≠ "") :
    (st.resume_from_waiting now (some s)).waiting_for_input = false ∧
    (st.resume_from_waiting now (some s)).stop_requested = false ∧
    (st.resume_from_waiting now (some s)).completed = false ∧
    (st.resume_from_waiting now (some s)).llm_failed = false ∧
    (st.resume_from_waiting now (some s)).task = s := by
  simp [AgentState.resume_from_waiting, h]

/-- C5 witness: from a state with all four flags true,
`resume_from_waiting "new task"` yields all four false and
`task = "new task"`. -/
theorem resume_from_waiting_spec_witness :
    (AgentState.resume_from_waiting "t1" (some "new task")
      { task := "old", completed := true, stop_requested := true,
        waiting_for_input := true, llm_failed := true }).waiting_for_input
        = false ∧
    (AgentState.resume_from_waiting "t1" (some "new task")
      { task := "old", completed := true, stop_requested := true,
        waiting_for_input := true, llm_failed := true }).stop_requested
        = false ∧
    (AgentState.resume_from_waiting "t1" (some "new task")
      { task := "old", completed := true, stop_requested := true,
        waiting_for_input := true, llm_failed := true }).completed = false ∧
    (AgentState.resume_from_waiting "t1" (some "new task")
      { task := "old", completed := true, stop_requested := true,
        waiting_for_input := true, llm_failed := true }).llm_failed = false ∧
    (AgentState.resume_from_waiting "t1" (some "new task")
      { task := "old", completed := true, stop_requested := true,
        waiting_for_input := true, llm_failed := true }).task = "new task" :=
  resume_from_waiting_spec
    { task := "old", completed := true, stop_requested := true,
      waiting_for_input := true, llm_failed := true }
    "t1" "new task" (by decide)

/-! ## C10 -/

/-- C10: `resume_from_waiting` with an empty string clears the four flags
but leaves `task` unchanged — the falsy empty string is treated like
supplying no task. -/
theorem resume_from_waiting_empty_string (st : AgentState) (now : String) :
    (st.resume_from_waiting now (some "")).waiting_for_input = false ∧
    (st.resume_from_waiting now (some "")).stop_requested = false ∧
    (st.resume_from_waiting now (some "")).completed = false ∧
    (st.resume_from_waiting now (some "")).llm_failed = false ∧
    (st.resume_from_waiting now (some "")).task = st.task ∧
    st.resume_from_waiting now (some "") = st.resume_from_waiting now none := by
  refine ⟨rfl, rfl, rfl, rfl, rfl, rfl⟩

/-! ## C6 -/

/-- Invariant of the `interval += 10` search loop: starting from a
positive interval, the loop returns the first interval of the form
`start + 10·k` at which the floored quotient drops to at most 3. The
bound `d` dominates the remaining distance `ns - i` for the induction. -/
theorem cacheIntervalLoop_spec (d : Nat) : ∀ ns i : Nat, ns - i ≤ d → 0 < i →
    i ≤ LLM.cacheIntervalLoop ns i ∧
    (∃ k, LLM.cacheIntervalLoop ns i = i + 10 * k) ∧
    ns / LLM.cacheIntervalLoop ns i ≤ 3 ∧
    (∀ j, 0 < j → (∃ k, j = i + 10 * k) →
      j < LLM.cacheIntervalLoop ns i → 3 < ns / j) := by
  induction d with
  | zero =>
    intro ns i hd hi
    have hle : ns ≤ i := by omega
    have hdiv : ns / i ≤ 1 := by
      calc ns / i ≤ i / i := Nat.div_le_div_right hle
        _ = 1 := Nat.div_self hi
    have hguard : ¬(0 < i ∧ 3 < ns / i) := by
      rintro ⟨-, h2⟩
      omega
    rw [LLM.cacheIntervalLoop, dif_neg hguard]
    refine ⟨le_refl _, ⟨0, by omega⟩, by omega, ?_⟩
    rintro j hj ⟨k, hk⟩ hlt
    omega
  | succ d ih =>
    intro ns i hd hi
    by_cases hguard : 0 < i ∧ 3 < ns / i
    · rw [LLM.cacheIntervalLoop, dif_pos hguard]
      have h4 : 4 * i ≤ ns := (Nat.le_div_iff_mul_le hguard.1).mp hguard.2
      obtain ⟨h1, ⟨k, hk⟩, h3, hmin⟩ :=
        ih ns (i + 10) (by omega) (by omega)
      refine ⟨by omega, ⟨k + 1, by omega⟩, h3, ?_⟩
      rintro j hj ⟨k', hk'⟩ hlt
      rcases Nat.eq_zero_or_pos k' with h0 | hpos
      · have hji : j = i := by omega
        rw [hji]
        exact hguard.2
      · exact hmin j hj ⟨k' - 1, by omega⟩ hlt
    · rw [LLM.cacheIntervalLoop, dif_neg hguard]
      have h3 : ns / i ≤ 3 := by
        by_contra hcon
        exact hguard ⟨hi, by omega⟩
      refine ⟨le_refl _, ⟨0, by omega⟩, h3, ?_⟩
      rintro j hj ⟨k, hk⟩ hlt
      omega

/-- C6: for every total message count, `_calculate_cache_interval` returns
the smallest positive multiple of 10 whose floored quotient of the
non-system message count (total minus one) is at most 3. -/
theorem calculate_cache_interval_smallest (total : Nat) :
    0 < LLM._calculate_cache_interval total ∧
    LLM._calculate_cache_interval total % 10 = 0 ∧
    (total - 1) / LLM._calculate_cache_interval total ≤ 3 ∧
    (∀ j, 0 < j → j % 10 = 0 → j < LLM._calculate_cache_interval total →
      3 < (total - 1) / j) := by
  unfold LLM._calculate_cache_interval
  by_cases h : total ≤ 1
  · rw [if_pos h]
    have h0 : total - 1 = 0 := by omega
    refine ⟨by omega, by omega, ?_, ?_⟩
    · rw [h0]; simp
    · intro j hj hmod hlt
      omega
  · rw [if_neg h]
    obtain ⟨h1, ⟨k, hk⟩, h3, hmin⟩ :=
      cacheIntervalLoop_spec (total - 1) (total - 1) 10 (by omega) (by omega)
    refine ⟨by omega, by omega, h3, ?_⟩
    intro j hj hmod hlt
    exact hmin j hj ⟨j / 10 - 1, by omega⟩ hlt

/-- C6 witness: one message yields interval 10; 41 messages (40
non-system) yield interval 20, and the smaller multiple 10 indeed fails
the quotient bound (`40 / 10 = 4 > 3`). -/
theorem calculate_cache_interval_smallest_witness :
    LLM._calculate_cache_interval 1 = 10 ∧
    LLM._calculate_cache_interval 41 = 20 ∧
    3 < (41 - 1) / 10 :=
  ⟨by simp [LLM._calculate_cache_interval],
   by simp [LLM._calculate_cache_interval, LLM.cacheIntervalLoop],
   (calculate_cache_interval_smallest 41).2.2.2 10 (by decide) (by decide)
     (by simp [LLM._calculate_cache_interval, LLM.cacheIntervalLoop])⟩

/-! ## C8 -/

/-- Spec-side matching: the configured name matches a list entry when,
case-insensitively, either its bare segment after the last `/` or the full
name equals the entry. -/
def modelMatchesEntry (name entry : String) : Prop :=
  LLM.toLowerStr (LLM.lastPathSegment name) = LLM.toLowerStr entry ∨
  LLM.toLowerStr name = LLM.toLowerStr entry

instance (name entry : String) : Decidable (modelMatchesEntry name entry) := by
  unfold modelMatchesEntry
  exact inferInstance

/-- Spec-side membership of a configured name in a model list. -/
def modelInList (name : String) (l : List String) : Prop :=
  ∃ entry ∈ l, modelMatchesEntry name entry

instance (name : String) (l : List String) : Decidable (modelInList name l) := by
  unfold modelInList
  exact inferInstance

/-- The boolean matcher used by both gates agrees with the spec-side
membership predicate. -/
theorem modelMatch_any_iff (name : String) (l : List String) :
    (l.any (fun m =>
        LLM.toLowerStr (LLM.lastPathSegment name) == LLM.toLowerStr m ||
        LLM.toLowerStr name == LLM.toLowerStr m)) = true ↔
      modelInList name l := by
  simp [modelInList, modelMatchesEntry, List.any_eq_true]

/-- The stop-sequence gate passes iff the configured name is not in the
denylist. -/
theorem should_include_stop_param_iff (name : String) :
    LLM._should_include_stop_param name = true ↔
      ¬ modelInList name LLM.MODELS_WITHOUT_STOP_WORDS := by
  unfold LLM._should_include_stop_param
  by_cases h : name = ""
  · subst h
    rw [if_pos rfl]
    have hno : ¬ modelInList "" LLM.MODELS_WITHOUT_STOP_WORDS := by decide
    simp [hno]
  · rw [if_neg h]
    rw [Bool.not_eq_true']
    rw [← Bool.not_eq_true (LLM.MODELS_WITHOUT_STOP_WORDS.any _)]
    exact not_congr (modelMatch_any_iff name LLM.MODELS_WITHOUT_STOP_WORDS)

/-- The reasoning-effort gate passes iff the configured name is in the
allowlist. -/
theorem should_include_reasoning_effort_iff (name : String) :
    LLM._should_include_reasoning_effort name = true ↔
      modelInList name LLM.REASONING_EFFORT_SUPPORTED_MODELS := by
  unfold LLM._should_include_reasoning_effort
  by_cases h : name = ""
  · subst h
    rw [if_pos rfl]
    have hno : ¬ modelInList "" LLM.REASONING_EFFORT_SUPPORTED_MODELS := by
      decide
    simp [hno]
  · rw [if_neg h]
    exact modelMatch_any_iff name LLM.REASONING_EFFORT_SUPPORTED_MODELS

/-- C8: the built request specification carries the stop-sequence
parameter iff the configured model name is not in the fixed denylist, and
the `"high"` reasoning-effort parameter iff it is in the fixed allowlist —
matching case-insensitively against the bare name or the segment after
the last `/`; the model and the fixed 180-second timeout are carried
verbatim. -/
theorem make_request_spec_param_gating (cfg : LLMConfig)
    (messages : List Message) :
    ((LLM.make_request_spec cfg messages).stop.isSome = true ↔
      ¬ modelInList cfg.model_name LLM.MODELS_WITHOUT_STOP_WORDS) ∧
    ((LLM.make_request_spec cfg messages).reasoning_effort = some "high" ↔
      modelInList cfg.model_name LLM.REASONING_EFFORT_SUPPORTED_MODELS) ∧
    (LLM.make_request_spec cfg messages).model = cfg.model_name ∧
    (LLM.make_request_spec cfg messages).timeout = 180 ∧
    (LLM.make_request_spec cfg messages).messages = messages := by
  refine ⟨?_, ?_, rfl, rfl, rfl⟩
  · rw [← should_include_stop_param_iff cfg.model_name]
    simp only [LLM.make_request_spec]
    cases hb : LLM._should_include_stop_param cfg.model_name <;> simp [hb]
  · rw [← should_include_reasoning_effort_iff cfg.model_name]
    simp only [LLM.make_request_spec]
    cases hb : LLM._should_include_reasoning_effort cfg.model_name <;>
      simp [hb]

/-- C8 witness: for the default model `openai/gpt-5` (bare segment
`gpt-5` is on both lists) the stop parameter is omitted and the `"high"`
reasoning effort is included. -/
theorem make_request_spec_param_gating_witness :
    (LLM.make_request_spec
      { model_name := "openai/gpt-5", temperature := 0,
        enable_prompt_caching := true, prompt_modules := [] } []).stop.isSome
      = false ∧
    (LLM.make_request_spec
      { model_name := "openai/gpt-5", temperature := 0,
        enable_prompt_caching := true, prompt_modules := [] }
      []).reasoning_effort = some "high" := by
  constructor
  · have h := (make_request_spec_param_gating
      { model_name := "openai/gpt-5", temperature := 0,
        enable_prompt_caching := true, prompt_modules := [] } []).1
    have hin : modelInList "openai/gpt-5" LLM.MODELS_WITHOUT_STOP_WORDS := by
      decide
    rcases hb : (LLM.make_request_spec
      { model_name := "openai/gpt-5", temperature := 0,
        enable_prompt_caching := true, prompt_modules := [] } []).stop.isSome
      with _ | _
    · rfl
    · exact absurd hin (h.mp hb)
  · exact (make_request_spec_param_gating
      { model_name := "openai/gpt-5", temperature := 0,
        enable_prompt_caching := true, prompt_modules := [] } []).2.1.mpr
      (by decide)

/-! ## C9 -/

/-- The closed set of fixed category labels used by the `except` chain of
`generate` for the litellm exception hierarchy. -/
def closedErrorLabels : List String :=
  ["Rate limit exceeded", "Invalid API key", "Model not found",
   "Context too long", "Content policy violation", "Service unavailable",
   "Request timed out", "Unprocessable entity", "Internal server error",
   "Connection error", "Unsupported parameters", "Budget exceeded",
   "Response validation error", "JSON schema validation error",
   "Invalid request", "Bad request", "API error", "OpenAI error"]

/-- C9: on any backend exception `generate` returns exactly one typed
`LLMRequestFailedError` whose message is the fixed
`"LLM request failed: "`-prefixed category label (from the closed set, or
the runtime type name for an unrecognized exception) and whose details are
the original diagnostic text — the raw exception is never propagated;
and a failure while computing cost never fails the call: the result is
still a success, the latest-request cost defaults to 0 and the running
total is unchanged. -/
theorem generate_error_normalization
    (compress : List Message → List Message) (truncate : String → String)
    (parseTools : String → List String) (system_prompt : String)
    (cfg : LLMConfig) (supports : Bool) (hist : List Message)
    (costOutcome : Except String (Option Rat)) (total last : LLM.RequestStats)
    (scan_id : Option String) (step : Nat) (e : LLM.BackendError)
    (raw : LLM.RawResponse) (costMsg : String) :
    (LLM.generate compress truncate parseTools system_prompt cfg supports
        hist (.error e) costOutcome total last scan_id step).1 =
      Except.error (LLM.normalizeError e) ∧
    (LLM.normalizeError e).message =
      "LLM request failed: " ++ LLM.errorCategoryLabel e ∧
    (LLM.normalizeError e).details = some (LLM.errorDiagnostic e) ∧
    (LLM.errorCategoryLabel e ∈ closedErrorLabels ∨
      ∃ tn m, e = .other tn m ∧ LLM.errorCategoryLabel e = tn) ∧
    (∃ resp, (LLM.generate compress truncate parseTools system_prompt cfg
        supports hist (.ok raw) (.error costMsg) total last scan_id
        step).1 = Except.ok resp) ∧
    ((LLM.generate compress truncate parseTools system_prompt cfg supports
        hist (.ok raw) (.error costMsg) total last scan_id step).2.2.2).cost
      = 0 ∧
    ((LLM.generate compress truncate parseTools system_prompt cfg supports
        hist (.ok raw) (.error costMsg) total last scan_id step).2.2.1).cost
      = total.cost := by
  refine ⟨rfl, rfl, rfl, ?_, ⟨_, rfl⟩, ?_, ?_⟩
  · cases e <;>
      first
        | exact Or.inr ⟨_, _, rfl, rfl⟩
        | exact Or.inl (by simp [LLM.errorCategoryLabel, closedErrorLabels])
  · simp [LLM.generate, LLM._update_usage_stats, LLM.computeCost]
  · simp [LLM.generate, LLM._update_usage_stats, LLM.computeCost]

/-! ## C7 -/

/-- The text strings carried by a content (the string itself, or the
`text` field of each item). -/
def contentTexts : MsgContent → List String
  | .str s => [s]
  | .items l => l.map (fun it => it.text)

/-- The annotation-invariant signature of a message: its role and the
texts of its content items. -/
def msgSig (m : Message) : String × List String :=
  (m.role, contentTexts m.content)

/-- Cache annotation never changes the texts of a content. -/
theorem contentTexts_add_cache_control (c : MsgContent) :
    contentTexts (LLM._add_cache_control_to_content c) = contentTexts c := by
  cases c with
  | str s => rfl
  | items l =>
    rcases List.eq_nil_or_concat l with h | ⟨l', a, h⟩
    · subst h; rfl
    · subst h
      simp only [LLM._add_cache_control_to_content, List.concat_eq_append,
        List.getLast?_concat, List.dropLast_concat]
      split
      · simp [contentTexts]
      · rfl

/-- Cache annotation preserves a message's role and texts. -/
theorem annotateMessage_msgSig (m : Message) :
    msgSig (LLM.annotateMessage m) = msgSig m := by
  unfold msgSig LLM.annotateMessage
  simp [contentTexts_add_cache_control]

/-- One-step unfolding of the annotation loop. -/
theorem prepareLoop_cons (msgs : List Message) (i : Nat) (rest : List Nat)
    (count : Nat) :
    LLM.prepareLoop msgs (i :: rest) count =
      if 3 ≤ count then msgs
      else if h : i < msgs.length then
        LLM.prepareLoop (msgs.set i (LLM.annotateMessage (msgs.get ⟨i, h⟩)))
          rest (count + 1)
      else LLM.prepareLoop msgs rest count := rfl

/-- The annotation loop preserves the list length. -/
theorem prepareLoop_length (is : List Nat) :
    ∀ (msgs : List Message) (count : Nat),
      (LLM.prepareLoop msgs is count).length = msgs.length := by
  induction is with
  | nil => intro msgs count; rfl
  | cons i rest ih =>
    intro msgs count
    rw [prepareLoop_cons]
    split
    · rfl
    · split
      · rw [ih]; simp
      · exact ih msgs count

/-- The annotation loop preserves every message's role and texts. -/
theorem prepareLoop_sig (is : List Nat) :
    ∀ (msgs : List Message) (count j : Nat),
      ((LLM.prepareLoop msgs is count)[j]?).map msgSig =
        (msgs[j]?).map msgSig := by
  induction is with
  | nil => intro msgs count j; rfl
  | cons i rest ih =>
    intro msgs count j
    rw [prepareLoop_cons]
    split
    · rfl
    · split
      · rename_i hlen
        rw [ih]
        by_cases hij : j = i
        · subst hij
          rw [List.getElem?_set_eq_of_lt _ hlen,
            List.getElem?_eq_getElem hlen]
          simp [annotateMessage_msgSig]
        · rw [List.getElem?_set_ne (Ne.symm hij)]
      · exact ih msgs count j

/-- The annotation loop changes at most `3 - count` positions, all of them
drawn from the index list. -/
theorem prepareLoop_diff (is : List Nat) :
    ∀ (msgs : List Message) (count : Nat),
      ∃ S : Finset ℕ, S.card ≤ 3 - count ∧ (∀ j ∈ S, j ∈ is) ∧
        ∀ j, (LLM.prepareLoop msgs is count)[j]? ≠ msgs[j]? → j ∈ S := by
  induction is with
  | nil =>
    intro msgs count
    exact ⟨∅, by simp, by simp, fun j h => absurd rfl h⟩
  | cons i rest ih =>
    intro msgs count
    by_cases h3 : 3 ≤ count
    · refine ⟨∅, by simp, by simp, fun j h => absurd ?_ h⟩
      rw [prepareLoop_cons, if_pos h3]
    · by_cases hlen : i < msgs.length
      · obtain ⟨S, hcard, hsub, hdiff⟩ :=
          ih (msgs.set i (LLM.annotateMessage (msgs.get ⟨i, hlen⟩)))
            (count + 1)
        refine ⟨insert i S, ?_, ?_, ?_⟩
        · have := Finset.card_insert_le i S
          omega
        · intro j hj
          rcases Finset.mem_insert.mp hj with h | h
          · exact h ▸ List.mem_cons_self i rest
          · exact List.mem_cons_of_mem i (hsub j h)
        · intro j hne
          rw [prepareLoop_cons, if_neg h3, dif_pos hlen] at hne
          by_cases hij : j = i
          · exact hij ▸ Finset.mem_insert_self i S
          · have hset :
                (msgs.set i
                  (LLM.annotateMessage (msgs.get ⟨i, hlen⟩)))[j]? =
                  msgs[j]? :=
              List.getElem?_set_ne (Ne.symm hij)
            refine Finset.mem_insert_of_mem (hdiff j ?_)
            rw [hset]
            exact hne
      · obtain ⟨S, hcard, hsub, hdiff⟩ := ih msgs count
        refine ⟨S, by omega,
          fun j hj => List.mem_cons_of_mem i (hsub j hj), ?_⟩
        intro j hne
        rw [prepareLoop_cons, if_neg h3, dif_neg hlen] at hne
        exact hdiff j hne

/-- The computed cache interval is at least 10. -/
theorem calculate_cache_interval_ge_ten (total : Nat) :
    10 ≤ LLM._calculate_cache_interval total := by
  unfold LLM._calculate_cache_interval
  split
  · exact le_refl 10
  · exact (cacheIntervalLoop_spec (total - 1) (total - 1) 10 (by omega)
      (by omega)).1

/-- Members of `range(start, stop, step)` are at least `start`. -/
theorem pyRangeStep_start_le {start stop step j : Nat}
    (h : j ∈ LLM.pyRangeStep start stop step) : start ≤ j := by
  simp only [LLM.pyRangeStep, List.mem_filter, Bool.and_eq_true,
    decide_eq_true_eq, beq_iff_eq] at h
  exact h.2.1

/-- Head annotation preserves the length. -/
theorem headAnnotated_length (l : List Message) :
    (LLM.headAnnotated l).length = l.length := by
  cases l with
  | nil => rfl
  | cons m0 rest =>
    simp only [LLM.headAnnotated]
    split <;> rfl

/-- Head annotation preserves every message's role and texts. -/
theorem headAnnotated_sig (l : List Message) (j : Nat) :
    ((LLM.headAnnotated l)[j]?).map msgSig = (l[j]?).map msgSig := by
  cases l with
  | nil => rfl
  | cons m0 rest =>
    simp only [LLM.headAnnotated]
    split
    · cases j with
      | zero => simp [annotateMessage_msgSig]
      | succ k => rfl
    · rfl

/-- Head annotation leaves all positions past the head unchanged. -/
theorem headAnnotated_tail (l : List Message) (j : Nat) (hj : 1 ≤ j) :
    (LLM.headAnnotated l)[j]? = l[j]? := by
  cases l with
  | nil => rfl
  | cons m0 rest =>
    simp only [LLM.headAnnotated]
    cases j with
    | zero => omega
    | succ k => split <;> rfl

/-- Head annotation is the identity when the head is not a system
message. -/
theorem headAnnotated_of_not_system (l : List Message) (m0 : Message)
    (h0 : l[0]? = some m0) (hr : m0.role ≠ "system") :
    LLM.headAnnotated l = l := by
  cases l with
  | nil => simp at h0
  | cons m rest =>
    have hm : m = m0 := by simpa using h0
    simp only [LLM.headAnnotated]
    rw [if_neg (hm ▸ hr)]

/-- C7: cache annotation changes at most 3 messages beyond the head (the
system message); every message keeps its role and the exact text of every
content item; a message at a position the pass does not annotate is
returned exactly as it was, and the head is untouched unless it is the
system message. -/
theorem prepare_cached_messages_frame (cfg : LLMConfig) (supports : Bool)
    (messages : List Message) :
    ∃ S : Finset ℕ, S.card ≤ 3 ∧ (∀ j ∈ S, 1 ≤ j) ∧
      (LLM._prepare_cached_messages cfg supports messages).length =
        messages.length ∧
      (∀ j : ℕ, ((LLM._prepare_cached_messages cfg supports
          messages)[j]?).map msgSig = (messages[j]?).map msgSig) ∧
      (∀ j : ℕ, (LLM._prepare_cached_messages cfg supports messages)[j]? ≠
          messages[j]? → j = 0 ∨ j ∈ S) ∧
      (∀ m0, messages[0]? = some m0 → m0.role ≠ "system" →
        (LLM._prepare_cached_messages cfg supports messages)[0]? =
          messages[0]?) := by
  by_cases hg : cfg.enable_prompt_caching = false ∨ supports = false ∨
      messages = []
  · have hout : LLM._prepare_cached_messages cfg supports messages =
        messages := by
      unfold LLM._prepare_cached_messages
      rw [if_pos hg]
    rw [hout]
    exact ⟨∅, by simp, by simp, rfl, fun j => rfl,
      fun j h => absurd rfl h, fun m0 h hr => rfl⟩
  · by_cases ha : LLM._is_anthropic_model cfg.model_name = false
    · have hout : LLM._prepare_cached_messages cfg supports messages =
          messages := by
        unfold LLM._prepare_cached_messages
        rw [if_neg hg, if_pos ha]
      rw [hout]
      exact ⟨∅, by simp, by simp, rfl, fun j => rfl,
        fun j h => absurd rfl h, fun m0 h hr => rfl⟩
    · have hout : LLM._prepare_cached_messages cfg supports messages =
          (if 1 < (LLM.headAnnotated messages).length then
            LLM.prepareLoop (LLM.headAnnotated messages)
              (LLM.pyRangeStep
                (LLM._calculate_cache_interval
                  (LLM.headAnnotated messages).length)
                (LLM.headAnnotated messages).length
                (LLM._calculate_cache_interval
                  (LLM.headAnnotated messages).length)) 0
          else LLM.headAnnotated messages) := by
        unfold LLM._prepare_cached_messages
        rw [if_neg hg, if_neg ha]
      by_cases htot : 1 < (LLM.headAnnotated messages).length
      · rw [hout, if_pos htot]
        obtain ⟨S, hcard, hsub, hdiff⟩ := prepareLoop_diff
          (LLM.pyRangeStep
            (LLM._calculate_cache_interval
              (LLM.headAnnotated messages).length)
            (LLM.headAnnotated messages).length
            (LLM._calculate_cache_interval
              (LLM.headAnnotated messages).length))
          (LLM.headAnnotated messages) 0
        have hge : 10 ≤ LLM._calculate_cache_interval
            (LLM.headAnnotated messages).length :=
          calculate_cache_interval_ge_ten _
        have hS1 : ∀ j ∈ S, 1 ≤ j := by
          intro j hj
          have := pyRangeStep_start_le (hsub j hj)
          omega
        refine ⟨S, by omega, hS1, ?_, ?_, ?_, ?_⟩
        · rw [prepareLoop_length, headAnnotated_length]
        · intro j
          rw [prepareLoop_sig, headAnnotated_sig]
        · intro j hne
          by_cases hj0 : j = 0
          · exact Or.inl hj0
          · refine Or.inr (hdiff j ?_)
            rw [headAnnotated_tail messages j (by omega)]
            exact hne
        · intro m0 h0 hr
          have hcm : LLM.headAnnotated messages = messages :=
            headAnnotated_of_not_system messages m0 h0 hr
          by_cases he : (LLM.prepareLoop (LLM.headAnnotated messages)
              (LLM.pyRangeStep
                (LLM._calculate_cache_interval
                  (LLM.headAnnotated messages).length)
                (LLM.headAnnotated messages).length
                (LLM._calculate_cache_interval
                  (LLM.headAnnotated messages).length)) 0)[0]? =
              (LLM.headAnnotated messages)[0]?
          · rw [he, hcm]
          · exact absurd (hS1 0 (hdiff 0 he)) (by omega)
      · rw [hout, if_neg htot]
        refine ⟨∅, by simp, by simp, headAnnotated_length messages,
          fun j => headAnnotated_sig messages j, ?_, ?_⟩
        · intro j hne
          by_cases hj0 : j = 0
          · exact Or.inl hj0
          · exact absurd (headAnnotated_tail messages j (by omega)) hne
        · intro m0 h0 hr
          rw [headAnnotated_of_not_system messages m0 h0 hr]
